import Mathlib

/-! The export command of `x/genutil/client/cli/export.go`.

A shallow embedding of `getAppDBBackend`, `openDB` and the `RunE` closure of
`ExportCmd`.  Everything the file calls but does not define (the file system,
the viper settings, the database driver, the export capability, the JSON
encoder, `AppGenesis.SaveAs`, `io.Copy`) is a field of an explicit environment,
and every call the closure makes is recorded, in order, in a trace.
-/

namespace Export

/-! ## Backend selection -/

/-- The type `dbm.BackendType`: a named string type. -/
abbrev BackendType := String

/-- The constant `dbm.GoLevelDBBackend`. -/
def GoLevelDBBackend : BackendType := "goleveldb"

/-- The constant `dbm.PebbleDBBackend`. -/
def PebbleDBBackend : BackendType := "pebbledb"

/-- The constant `dbm.RocksDBBackend`. -/
def RocksDBBackend : BackendType := "rocksdb"

/-- The verb `%q` of `fmt.Sprintf` on a string: the text between double quotes.
No escaping is modelled; the strings quoted by `getAppDBBackend` are lower-case
ASCII words, on which `%q` adds nothing but the two quotes. -/
def fmtQ (s : String) : String := "\"" ++ s ++ "\""

/-- The message built at line 141:
`fmt.Sprintf("invalid app-db-backend %q, use %q, %q, %q instead", rv, ...)`. -/
def invalidBackendMsg (rv : String) : String :=
  "invalid app-db-backend " ++ fmtQ rv ++ ", use " ++ fmtQ GoLevelDBBackend ++ ", "
    ++ fmtQ PebbleDBBackend ++ ", " ++ fmtQ RocksDBBackend ++ " instead"

/-- The function `getAppDBBackend` (lines 133-149).  The two arguments are
`cast.ToString(opts.Get("app-db-backend"))` and
`cast.ToString(opts.Get("db_backend"))`; the second is only consulted when the
first is empty.  The test `len(rv) == 0` is `rv.length = 0`: both hold of the
empty string only.  A `panic` is the `Except.error` result, carrying the panic
message. -/
def getAppDBBackend (appDbBackend dbBackend : String) : Except String BackendType :=
  let rv := appDbBackend
  let rv := if rv.length = 0 then dbBackend else rv
  if rv = "cleveldb" ∨ rv = "badgerdb" ∨ rv = "boltdb" then
    Except.error (invalidBackendMsg rv)
  else if rv.length ≠ 0 then
    Except.ok rv
  else
    Except.ok GoLevelDBBackend

/-- The resolved name in the words of the specification: the application
specific setting if it is non-empty, otherwise the generic setting. -/
def resolvedName (appDbBackend dbBackend : String) : String :=
  if appDbBackend = "" then dbBackend else appDbBackend

/-- The retired backend names. -/
def retiredBackends : List String := ["cleveldb", "badgerdb", "boltdb"]

/-- The text `t` occurs in the text `s`. -/
def Contains (s t : String) : Prop := t.data <:+: s.data

instance (s t : String) : Decidable (Contains s t) := by
  unfold Contains; infer_instance


/-! ## Data model -/

/-- A non-nil Go `error`.  `plain` is an error as the `os` package and the
other collaborators return it, with the fact `os.IsNotExist` tests for;
`wrapped` is the value `fmt.Errorf` builds for a `%w` verb. -/
inductive GoError where
  | plain (msg : String) (notExist : Bool)
  | wrapped (msg : String) (cause : GoError)
  deriving DecidableEq, Repr

/-- The method `Error()`: the message of an error. -/
def GoError.Error : GoError → String
  | GoError.plain msg _ => msg
  | GoError.wrapped msg _ => msg

/-- The method `Unwrap()`, as `errors.Unwrap` calls it. -/
def GoError.Unwrap : GoError → Option GoError
  | GoError.plain _ _ => none
  | GoError.wrapped _ cause => some cause

/-- The function `os.IsNotExist`; `none` is the nil error.  It predates
`errors.Is` and does not look through a `%w` wrapper. -/
def osIsNotExist : Option GoError → Bool
  | some (GoError.plain _ notExist) => notExist
  | _ => false

/-- The call `fmt.Errorf("error exporting state: %w", err)` of line 82. -/
def errorfExportingState (err : GoError) : GoError :=
  GoError.wrapped ("error exporting state: " ++ err.Error) err

/-- The types that `export.go` handles but never inspects: the store handle
`corestore.KVStoreWithBatch`, `time.Time`, the consensus parameters and the
validator records of an exported application, and
`*genutiltypes.ConsensusGenesis`. -/
structure Carrier where
  DB : Type
  Time : Type
  ConsensusParams : Type
  Validator : Type
  ConsensusGenesis : Type

/-- The type `genutiltypes.AppGenesis`, with the fields `RunE` assigns and the
fields of the genesis document of the specification. -/
structure AppGenesis (K : Carrier) where
  AppName : String
  AppVersion : String
  GenesisTime : K.Time
  ChainID : String
  InitialHeight : Int
  AppState : List UInt8
  Consensus : K.ConsensusGenesis

/-- The type `servertypes.ExportedApp`. -/
structure ExportedApp (K : Carrier) where
  AppState : List UInt8
  Validators : List K.Validator
  Height : Int
  ConsensusParams : K.ConsensusParams

/-- The arguments of the call of line 80 that come from the store and from the
flags: `db`, `height`, `forZeroHeight`, `jailAllowedAddrs`, `modulesToExport`. -/
structure ExportArgs (K : Carrier) where
  db : K.DB
  height : Int
  forZeroHeight : Bool
  jailAllowedAddrs : List String
  modulesToExport : List String

/-- The type `servertypes.AppExporter`, a function value that may be nil. -/
abbrev AppExporter (K : Carrier) := ExportArgs K → Except GoError (ExportedApp K)

/-- The flags as given on the command line; `none` is a flag left out. -/
structure Flags where
  height : Option Int
  forZeroHeight : Option Bool
  jailAllowedAddrs : Option (List String)
  modulesToExport : Option (List String)
  outputDocument : Option String

/-- The call `cmd.Flags().GetInt64(flagHeight)`, default `-1` (line 117). -/
def Flags.getHeight (fl : Flags) : Int := fl.height.getD (-1)

/-- The call `cmd.Flags().GetBool(flagForZeroHeight)`, default `false` (line 118). -/
def Flags.getForZeroHeight (fl : Flags) : Bool := fl.forZeroHeight.getD false

/-- The call `cmd.Flags().GetStringSlice(flagJailAllowedAddrs)`, default
`[]string{}` (line 119). -/
def Flags.getJailAllowedAddrs (fl : Flags) : List String := fl.jailAllowedAddrs.getD []

/-- The call `cmd.Flags().GetStringSlice(flagModulesToExport)`, default
`[]string{}` (line 120). -/
def Flags.getModulesToExport (fl : Flags) : List String := fl.modulesToExport.getD []

/-- The call `cmd.Flags().GetString(flags.FlagOutputDocument)`, default `""`
(line 121). -/
def Flags.getOutputDocument (fl : Flags) : String := fl.outputDocument.getD ""

/-- Everything `RunE` reads or calls that `export.go` does not define. -/
structure Env (K : Carrier) where
  /-- The field `config.RootDir`. -/
  RootDir : String
  /-- The value of `config.GenesisFile()`. -/
  GenesisFile : String
  /-- The value of `cast.ToString(viper.Get("app-db-backend"))`. -/
  appDbBackend : String
  /-- The value of `cast.ToString(viper.Get("db_backend"))`. -/
  dbBackend : String
  /-- The flags of the command. -/
  flags : Flags
  /-- The variable `version.AppName`. -/
  versionAppName : String
  /-- The variable `version.Version`. -/
  versionVersion : String
  /-- The function `genutiltypes.NewConsensusGenesis`. -/
  NewConsensusGenesis : K.ConsensusParams → List K.Validator → K.ConsensusGenesis
  /-- The error of `os.Stat(path)`; `none` is nil. -/
  Stat : String → Option GoError
  /-- The function `filepath.Join` on two elements. -/
  Join : String → String → String
  /-- The function `dbm.NewDB(name, backend, dir)`. -/
  NewDB : String → BackendType → String → Except GoError K.DB
  /-- The error of `fmt.Fprintln(cmd.ErrOrStderr(), text)`. -/
  Fprintln : String → Option GoError
  /-- The call `os.OpenFile(path, os.O_RDONLY, 0)`: an error, or the file, given
  by the bytes a reader of it obtains. -/
  OpenFile : String → Except GoError (List UInt8)
  /-- The fault, if any, that stops `io.Copy` to `cmd.OutOrStdout()`: the number
  of bytes already delivered and the error. -/
  copyFault : Option (Nat × GoError)
  /-- The function `genutiltypes.AppGenesisFromFile`. -/
  AppGenesisFromFile : String → Except GoError (AppGenesis K)
  /-- The function `json.Marshal` on an `AppGenesis`. -/
  Marshal : AppGenesis K → Except GoError (List UInt8)
  /-- The method `AppGenesis.SaveAs(file)`. -/
  SaveAs : AppGenesis K → String → Option GoError

/-- One call made by `RunE`, with what was handed to the callee. -/
inductive Event (K : Carrier) where
  /-- The call `os.Stat(path)` of line 43. -/
  | stat (path : String)
  /-- The call `getAppDBBackend(viper)` of line 47. -/
  | getBackend
  /-- The call `openDB(rootDir, backend)` of line 47. -/
  | openDB (rootDir : String) (backend : BackendType)
  /-- The call `fmt.Fprintln(cmd.ErrOrStderr(), text)` of line 53. -/
  | warn (text : String)
  /-- The call `os.OpenFile(path, os.O_RDONLY, 0)` of line 61. -/
  | openFile (path : String)
  /-- The deferred `f.Close()` of line 65. -/
  | closeFile (path : String)
  /-- A call of `io.Copy` with `cmd.OutOrStdout()` as destination (lines 67
  and 105), with the bytes it delivered. -/
  | stdout (bytes : List UInt8)
  /-- The call of the export capability of line 80. -/
  | exportCall (args : ExportArgs K)
  /-- The call `genutiltypes.AppGenesisFromFile(path)` of line 85. -/
  | genesisFromFile (path : String)
  /-- The call `json.Marshal(appGenesis)` of line 98. -/
  | marshal (doc : AppGenesis K)
  /-- The call `appGenesis.SaveAs(path)` of line 109. -/
  | saveAs (doc : AppGenesis K) (path : String)

/-- How a run of `RunE` ends: it returns an error value (`none` is nil, the
successful return) or it panics. -/
inductive Outcome where
  | returned (err : Option GoError)
  | panicked (msg : String)
  deriving DecidableEq, Repr

/-- A run of `RunE`: the calls it made, in order, and how it ended. -/
structure Run (K : Carrier) where
  trace : List (Event K)
  outcome : Outcome

/-! ## The command -/

/-- The function `io.Copy(cmd.OutOrStdout(), src)`: without a fault all bytes of
`src` are delivered and the error is nil; with a fault the bytes before it are
delivered and its error is returned. -/
def ioCopy {K : Carrier} (env : Env K) (src : List UInt8) : List UInt8 × Option GoError :=
  match env.copyFault with
  | none => (src, none)
  | some (n, e) => (src.take n, some e)

/-- The function `openDB` (lines 127-130). -/
def openDB {K : Carrier} (env : Env K) (rootDir : String) (backendType : BackendType) :
    Except GoError K.DB :=
  let dataDir := env.Join rootDir "data"
  env.NewDB "application" backendType dataDir

/-- The text written by line 53, with the newline `Fprintln` adds. -/
def warningText : String := "WARNING: App exporter not defined. Returning genesis file.\n"

/-- Lines 52-72 of `RunE`, the branch `appExporter == nil`; `t` is the trace so
far. -/
def noExporterBranch {K : Carrier} (env : Env K) (t : List (Event K)) : Run K :=
  match env.Fprintln warningText with
  | some err => ⟨t ++ [Event.warn warningText], Outcome.returned (some err)⟩
  | none =>
    match env.OpenFile env.GenesisFile with
    | Except.error err =>
      ⟨t ++ [Event.warn warningText, Event.openFile env.GenesisFile], Outcome.returned (some err)⟩
    | Except.ok f =>
      match ioCopy env f with
      | (written, some err) =>
        ⟨t ++ [Event.warn warningText, Event.openFile env.GenesisFile, Event.stdout written,
            Event.closeFile env.GenesisFile], Outcome.returned (some err)⟩
      | (written, none) =>
        ⟨t ++ [Event.warn warningText, Event.openFile env.GenesisFile, Event.stdout written,
            Event.closeFile env.GenesisFile], Outcome.returned none⟩

/-- Lines 91-96 of `RunE`: the assignments to the fields of `appGenesis`. -/
def setExported {K : Carrier} (env : Env K) (appGenesis : AppGenesis K)
    (exported : ExportedApp K) : AppGenesis K :=
  let appGenesis := { appGenesis with AppName := env.versionAppName }
  let appGenesis := { appGenesis with AppVersion := env.versionVersion }
  let appGenesis := { appGenesis with AppState := exported.AppState }
  let appGenesis := { appGenesis with InitialHeight := exported.Height }
  { appGenesis with
    Consensus := env.NewConsensusGenesis exported.ConsensusParams exported.Validators }

/-- The arguments line 80 hands to the export capability (lines 74-77). -/
def exportArgs {K : Carrier} (env : Env K) (db : K.DB) : ExportArgs K :=
  { db := db
    height := env.flags.getHeight
    forZeroHeight := env.flags.getForZeroHeight
    jailAllowedAddrs := env.flags.getJailAllowedAddrs
    modulesToExport := env.flags.getModulesToExport }

/-- Lines 74-113 of `RunE`, the code after the branch `appExporter == nil`; `t`
is the trace so far. -/
def exporterBranch {K : Carrier} (env : Env K) (appExporter : AppExporter K) (db : K.DB)
    (t : List (Event K)) : Run K :=
  let outputDocument := env.flags.getOutputDocument
  let args := exportArgs env db
  match appExporter args with
  | Except.error err =>
    ⟨t ++ [Event.exportCall args], Outcome.returned (some (errorfExportingState err))⟩
  | Except.ok exported =>
    match env.AppGenesisFromFile env.GenesisFile with
    | Except.error err =>
      ⟨t ++ [Event.exportCall args, Event.genesisFromFile env.GenesisFile],
        Outcome.returned (some err)⟩
    | Except.ok appGenesis =>
      let appGenesis := setExported env appGenesis exported
      match env.Marshal appGenesis with
      | Except.error err =>
        ⟨t ++ [Event.exportCall args, Event.genesisFromFile env.GenesisFile,
            Event.marshal appGenesis], Outcome.returned (some err)⟩
      | Except.ok out =>
        if outputDocument = "" then
          ⟨t ++ [Event.exportCall args, Event.genesisFromFile env.GenesisFile,
              Event.marshal appGenesis, Event.stdout (ioCopy env out).1],
            Outcome.returned (ioCopy env out).2⟩
        else
          ⟨t ++ [Event.exportCall args, Event.genesisFromFile env.GenesisFile,
              Event.marshal appGenesis, Event.saveAs appGenesis outputDocument],
            Outcome.returned (env.SaveAs appGenesis outputDocument)⟩

/-- The closure `RunE` of the command `ExportCmd(appExporter)` builds (lines
38-114); `none` is the nil exporter. -/
def RunE {K : Carrier} (appExporter : Option (AppExporter K)) (env : Env K) : Run K :=
  let err := env.Stat env.GenesisFile
  if osIsNotExist err then
    ⟨[Event.stat env.GenesisFile], Outcome.returned err⟩
  else
    match getAppDBBackend env.appDbBackend env.dbBackend with
    | Except.error msg => ⟨[Event.stat env.GenesisFile, Event.getBackend], Outcome.panicked msg⟩
    | Except.ok backend =>
      match openDB env env.RootDir backend with
      | Except.error err =>
        ⟨[Event.stat env.GenesisFile, Event.getBackend, Event.openDB env.RootDir backend],
          Outcome.returned (some err)⟩
      | Except.ok db =>
        match appExporter with
        | none =>
          noExporterBranch env
            [Event.stat env.GenesisFile, Event.getBackend, Event.openDB env.RootDir backend]
        | some exporter =>
          exporterBranch env exporter db
            [Event.stat env.GenesisFile, Event.getBackend, Event.openDB env.RootDir backend]

/-! ## Observations on a trace -/

/-- The bytes delivered to standard output, in order. -/
def stdoutBytes {K : Carrier} : List (Event K) → List UInt8
  | [] => []
  | Event.stdout bytes :: t => bytes ++ stdoutBytes t
  | _ :: t => stdoutBytes t

/-- The number of writes to standard output. -/
def stdoutWrites {K : Carrier} : List (Event K) → Nat
  | [] => 0
  | Event.stdout _ :: t => stdoutWrites t + 1
  | _ :: t => stdoutWrites t

/-- The paths handed to `SaveAs`, in order. -/
def savedPaths {K : Carrier} : List (Event K) → List String
  | [] => []
  | Event.saveAs _ path :: t => path :: savedPaths t
  | _ :: t => savedPaths t

/-- The arguments of the calls of the export capability, in order. -/
def exportCalls {K : Carrier} : List (Event K) → List (ExportArgs K)
  | [] => []
  | Event.exportCall args :: t => args :: exportCalls t
  | _ :: t => exportCalls t

/-- The documents handed to `json.Marshal` or to `SaveAs`, in order. -/
def producedDocs {K : Carrier} : List (Event K) → List (AppGenesis K)
  | [] => []
  | Event.marshal doc :: t => doc :: producedDocs t
  | Event.saveAs doc _ :: t => doc :: producedDocs t
  | _ :: t => producedDocs t

/-- The number of reads of the source genesis document for merging. -/
def genesisReads {K : Carrier} : List (Event K) → Nat
  | [] => 0
  | Event.genesisFromFile _ :: t => genesisReads t + 1
  | _ :: t => genesisReads t

/-- The number of warnings written. -/
def warnings {K : Carrier} : List (Event K) → Nat
  | [] => 0
  | Event.warn _ :: t => warnings t + 1
  | _ :: t => warnings t

/-- The number of times the store was opened. -/
def storeOpens {K : Carrier} : List (Event K) → Nat
  | [] => 0
  | Event.openDB _ _ :: t => storeOpens t + 1
  | _ :: t => storeOpens t

/-- The number of backend resolutions. -/
def backendResolutions {K : Carrier} : List (Event K) → Nat
  | [] => 0
  | Event.getBackend :: t => backendResolutions t + 1
  | _ :: t => backendResolutions t

/-! ## Concrete inputs -/

/-- A carrier of small concrete types. -/
abbrev natCarrier : Carrier :=
  { DB := Unit, Time := Nat, ConsensusParams := Nat, Validator := Nat,
    ConsensusGenesis := Nat × List Nat }

/-- A source genesis document written by another binary. -/
def sampleGenesis : AppGenesis natCarrier :=
  { AppName := "oldd", AppVersion := "v0.1.0", GenesisTime := 1700000000, ChainID := "test-1",
    InitialHeight := 1, AppState := [1, 2], Consensus := (0, []) }

/-- An exported application state. -/
def sampleExported : ExportedApp natCarrier :=
  { AppState := [7, 8, 9], Validators := [4, 5], Height := 42, ConsensusParams := 3 }

/-- An export capability that succeeds. -/
def okExporter : AppExporter natCarrier := fun _ => Except.ok sampleExported

/-- An export capability that fails. -/
def failingExporter : AppExporter natCarrier :=
  fun _ => Except.error (GoError.plain "height 9 is not available" false)

/-- An environment in which every collaborator succeeds and no flag is given. -/
def sampleEnv : Env natCarrier :=
  { RootDir := "/home/node"
    GenesisFile := "/home/node/config/genesis.json"
    appDbBackend := ""
    dbBackend := ""
    flags := { height := none, forZeroHeight := none, jailAllowedAddrs := none,
               modulesToExport := none, outputDocument := none }
    versionAppName := "simd"
    versionVersion := "v0.52.0"
    NewConsensusGenesis := fun params validators => (params, validators)
    Stat := fun _ => none
    Join := fun dir name => dir ++ "/" ++ name
    NewDB := fun _ _ _ => Except.ok ()
    Fprintln := fun _ => none
    OpenFile := fun _ => Except.ok [123, 34, 97, 34, 58, 49, 125]
    copyFault := none
    AppGenesisFromFile := fun _ => Except.ok sampleGenesis
    Marshal := fun doc => Except.ok doc.AppState
    SaveAs := fun _ _ => none }

/-- The error of `os.Stat` for a file that does not exist. -/
def notExistError : GoError :=
  GoError.plain "stat /home/node/config/genesis.json: no such file or directory" true

/-- The error of `os.Stat` for a file in a directory that may not be searched. -/
def permissionError : GoError :=
  GoError.plain "stat /home/node/config/genesis.json: permission denied" false

/-- The error of reading a file in a directory that may not be searched. -/
def openPermissionError : GoError :=
  GoError.plain "open /home/node/config/genesis.json: permission denied" false

/-- The error of a store whose lock another process holds. -/
def lockError : GoError := GoError.plain "resource temporarily unavailable" false

/-- The genesis file does not exist. -/
def absentEnv : Env natCarrier :=
  { sampleEnv with Stat := fun _ => some notExistError }

/-- The flag `--output-document out.json` is given. -/
def fileTargetEnv : Env natCarrier :=
  { sampleEnv with
    flags := { height := none, forZeroHeight := none, jailAllowedAddrs := none,
               modulesToExport := none, outputDocument := some "out.json" } }

/-- The flag `--modules-to-export bank` is given, the height is left out. -/
def bankEnv : Env natCarrier :=
  { sampleEnv with
    flags := { height := none, forZeroHeight := some true, jailAllowedAddrs := none,
               modulesToExport := some ["bank"], outputDocument := none } }

/-- The directory of the genesis file may not be searched: `os.Stat` and the
later read both fail, neither with a not-exist error. -/
def permissionEnv : Env natCarrier :=
  { sampleEnv with
    Stat := fun _ => some permissionError
    AppGenesisFromFile := fun _ => Except.error openPermissionError }

/-- The store cannot be opened. -/
def lockedEnv : Env natCarrier :=
  { sampleEnv with NewDB := fun _ _ _ => Except.error lockError }

/-! ## Lemmas -/

theorem length_eq_zero_iff (s : String) : s.length = 0 ↔ s = "" := by
  constructor
  · intro h
    have h1 : s.data = [] := List.length_eq_zero.mp h
    exact String.ext h1
  · intro h
    subst h
    rfl

theorem contains_mid (a b c : String) : Contains (a ++ b ++ c) b := by
  unfold Contains
  refine ⟨a.data, c.data, ?_⟩
  simp [String.data_append]

theorem contains_append_right {s t : String} (u : String) (h : Contains s t) :
    Contains (s ++ u) t := by
  unfold Contains at *
  obtain ⟨p, q, hpq⟩ := h
  refine ⟨p, q ++ u.data, ?_⟩
  simp [String.data_append, ← hpq]

theorem contains_append_left {s t : String} (u : String) (h : Contains s t) :
    Contains (u ++ s) t := by
  unfold Contains at *
  obtain ⟨p, q, hpq⟩ := h
  refine ⟨u.data ++ p, q, ?_⟩
  simp [String.data_append, ← hpq]

theorem contains_fmtQ (s : String) : Contains (fmtQ s) s := by
  unfold fmtQ
  exact contains_mid _ _ _

theorem invalidBackendMsg_contains (rv : String) :
    Contains (invalidBackendMsg rv) rv ∧
    Contains (invalidBackendMsg rv) "goleveldb" ∧
    Contains (invalidBackendMsg rv) "pebbledb" ∧
    Contains (invalidBackendMsg rv) "rocksdb" := by
  unfold invalidBackendMsg GoLevelDBBackend PebbleDBBackend RocksDBBackend
  refine ⟨?_, ?_, ?_, ?_⟩
  · iterate 7 apply contains_append_right
    exact contains_append_left _ (contains_fmtQ rv)
  · iterate 5 apply contains_append_right
    exact contains_append_left _ (contains_fmtQ _)
  · iterate 3 apply contains_append_right
    exact contains_append_left _ (contains_fmtQ _)
  · apply contains_append_right
    exact contains_append_left _ (contains_fmtQ _)

/-- The panic message for the generic setting `cleveldb`, letter by letter. -/
theorem getAppDBBackend_cleveldb : getAppDBBackend "" "cleveldb" =
    Except.error
      "invalid app-db-backend \"cleveldb\", use \"goleveldb\", \"pebbledb\", \"rocksdb\" instead" := by
  rfl

theorem resolved_eq (appDbBackend dbBackend : String) :
    (if appDbBackend.length = 0 then dbBackend else appDbBackend)
      = resolvedName appDbBackend dbBackend := by
  unfold resolvedName
  by_cases h : appDbBackend = ""
  · simp [h]
  · have h2 : ¬ appDbBackend.length = 0 := fun hl => h ((length_eq_zero_iff _).mp hl)
    simp [h, h2]

theorem getAppDBBackend_eq (appDbBackend dbBackend : String) :
    getAppDBBackend appDbBackend dbBackend =
      if resolvedName appDbBackend dbBackend ∈ retiredBackends then
        Except.error (invalidBackendMsg (resolvedName appDbBackend dbBackend))
      else if resolvedName appDbBackend dbBackend = "" then Except.ok GoLevelDBBackend
      else Except.ok (resolvedName appDbBackend dbBackend) := by
  unfold getAppDBBackend
  simp only [resolved_eq]
  generalize resolvedName appDbBackend dbBackend = rv
  simp only [retiredBackends, List.mem_cons, List.mem_singleton, List.not_mem_nil,
    or_false, ne_eq, length_eq_zero_iff]
  by_cases h1 : rv = "cleveldb" ∨ rv = "badgerdb" ∨ rv = "boltdb"
  · simp only [h1, if_true]
  · simp only [h1, if_false]
    by_cases h2 : rv = ""
    · simp [h2]
    · simp [h2]

/-! ## Theorems on `getAppDBBackend` -/

/-- C1: when the resolved name (the application setting if non-empty, otherwise
the generic setting) is one of the retired names, `getAppDBBackend` returns no
backend: it panics, and the panic message contains the offending name and the
three accepted names `goleveldb`, `pebbledb` and `rocksdb`. -/
theorem getAppDBBackend_retired (appDbBackend dbBackend : String)
    (h : resolvedName appDbBackend dbBackend ∈ retiredBackends) :
    (∀ backend, getAppDBBackend appDbBackend dbBackend ≠ Except.ok backend) ∧
    ∃ msg, getAppDBBackend appDbBackend dbBackend = Except.error msg ∧
      Contains msg (resolvedName appDbBackend dbBackend) ∧
      Contains msg "goleveldb" ∧ Contains msg "pebbledb" ∧ Contains msg "rocksdb" := by
  have heq := getAppDBBackend_eq appDbBackend dbBackend
  rw [if_pos h] at heq
  refine ⟨?_, _, heq, invalidBackendMsg_contains _⟩
  intro backend hb
  rw [heq] at hb
  cases hb

/-- The property C1 at the settings `("", "boltdb")`. -/
theorem getAppDBBackend_retired_witness :
    (∀ backend, getAppDBBackend "" "boltdb" ≠ Except.ok backend) ∧
    ∃ msg, getAppDBBackend "" "boltdb" = Except.error msg ∧
      Contains msg (resolvedName "" "boltdb") ∧
      Contains msg "goleveldb" ∧ Contains msg "pebbledb" ∧ Contains msg "rocksdb" :=
  getAppDBBackend_retired "" "boltdb" (by decide)

/-- C2: when the resolved name is not retired, `getAppDBBackend` returns the
application setting if it is non-empty, whatever the generic setting holds,
otherwise the generic setting if it is non-empty, otherwise the default
`goleveldb`. -/
theorem getAppDBBackend_precedence (appDbBackend dbBackend : String)
    (h : resolvedName appDbBackend dbBackend ∉ retiredBackends) :
    getAppDBBackend appDbBackend dbBackend =
      Except.ok (if appDbBackend ≠ "" then appDbBackend
                 else if dbBackend ≠ "" then dbBackend
                 else GoLevelDBBackend) := by
  have heq := getAppDBBackend_eq appDbBackend dbBackend
  rw [if_neg h] at heq
  rw [heq]
  unfold resolvedName
  by_cases ha : appDbBackend = ""
  · by_cases hd : dbBackend = ""
    · simp [ha, hd]
    · simp [ha, hd]
  · simp [ha]

/-- The property C2 with a retired generic setting behind an accepted
application setting, and with neither setting set. -/
theorem getAppDBBackend_precedence_witness :
    getAppDBBackend "pebbledb" "cleveldb" = Except.ok "pebbledb" ∧
    getAppDBBackend "" "" = Except.ok "goleveldb" :=
  ⟨getAppDBBackend_precedence "pebbledb" "cleveldb" (by decide),
   getAppDBBackend_precedence "" "" (by decide)⟩

/-! ## Lemmas on `RunE` -/

theorem RunE_absent {K : Carrier} (appExporter : Option (AppExporter K)) (env : Env K)
    (h : osIsNotExist (env.Stat env.GenesisFile) = true) :
    RunE appExporter env =
      ⟨[Event.stat env.GenesisFile], Outcome.returned (env.Stat env.GenesisFile)⟩ := by
  simp [RunE, h]

theorem RunE_open_failed {K : Carrier} (appExporter : Option (AppExporter K)) (env : Env K)
    (backend : BackendType) (e : GoError)
    (hstat : osIsNotExist (env.Stat env.GenesisFile) = false)
    (hb : getAppDBBackend env.appDbBackend env.dbBackend = Except.ok backend)
    (hdb : openDB env env.RootDir backend = Except.error e) :
    RunE appExporter env =
      ⟨[Event.stat env.GenesisFile, Event.getBackend, Event.openDB env.RootDir backend],
        Outcome.returned (some e)⟩ := by
  simp [RunE, hstat, hb, hdb]

theorem RunE_none {K : Carrier} (env : Env K) (backend : BackendType) (db : K.DB)
    (hstat : osIsNotExist (env.Stat env.GenesisFile) = false)
    (hb : getAppDBBackend env.appDbBackend env.dbBackend = Except.ok backend)
    (hdb : openDB env env.RootDir backend = Except.ok db) :
    RunE none env = noExporterBranch env
      [Event.stat env.GenesisFile, Event.getBackend, Event.openDB env.RootDir backend] := by
  simp [RunE, hstat, hb, hdb]

theorem RunE_some {K : Carrier} (appExporter : AppExporter K) (env : Env K)
    (backend : BackendType) (db : K.DB)
    (hstat : osIsNotExist (env.Stat env.GenesisFile) = false)
    (hb : getAppDBBackend env.appDbBackend env.dbBackend = Except.ok backend)
    (hdb : openDB env env.RootDir backend = Except.ok db) :
    RunE (some appExporter) env = exporterBranch env appExporter db
      [Event.stat env.GenesisFile, Event.getBackend, Event.openDB env.RootDir backend] := by
  simp [RunE, hstat, hb, hdb]

theorem exporterBranch_failed {K : Carrier} (appExporter : AppExporter K) (env : Env K)
    (db : K.DB) (t : List (Event K)) (e : GoError)
    (hex : appExporter (exportArgs env db) = Except.error e) :
    exporterBranch env appExporter db t =
      ⟨t ++ [Event.exportCall (exportArgs env db)], Outcome.returned (some (errorfExportingState e))⟩ := by
  simp [exporterBranch, hex]

theorem exporterBranch_docs {K : Carrier} (appExporter : AppExporter K) (env : Env K)
    (db : K.DB) (t : List (Event K)) (exported : ExportedApp K) (source : AppGenesis K)
    (ht : producedDocs t = [])
    (hex : appExporter (exportArgs env db) = Except.ok exported)
    (hsrc : env.AppGenesisFromFile env.GenesisFile = Except.ok source) :
    producedDocs (exporterBranch env appExporter db t).trace ≠ [] ∧
    ∀ doc ∈ producedDocs (exporterBranch env appExporter db t).trace,
      doc = setExported env source exported := by
  have happ : ∀ (u v : List (Event K)), producedDocs (u ++ v) = producedDocs u ++ producedDocs v := by
    intro u v
    induction u with
    | nil => simp [producedDocs]
    | cons a u ih => cases a <;> simp [producedDocs, ih]
  unfold exporterBranch
  simp only [hex, hsrc]
  split
  · simp [happ, ht, producedDocs]
  · split
    · simp [happ, ht, producedDocs]
    · simp [happ, ht, producedDocs]

/-! ## Theorems on `RunE` -/

/-- C3: on the exporter-present path, every genesis document the run produces
(hands to `json.Marshal` or to `SaveAs`), and it produces one, has `AppName` and
`AppVersion` equal to `version.AppName` and `version.Version` whatever the source
document holds, and `ChainID` and `GenesisTime` equal to those of the source
document, whatever the exported state holds. -/
theorem produced_identity_fields {K : Carrier} (appExporter : AppExporter K) (env : Env K)
    (backend : BackendType) (db : K.DB) (exported : ExportedApp K) (source : AppGenesis K)
    (hstat : osIsNotExist (env.Stat env.GenesisFile) = false)
    (hb : getAppDBBackend env.appDbBackend env.dbBackend = Except.ok backend)
    (hdb : openDB env env.RootDir backend = Except.ok db)
    (hex : appExporter (exportArgs env db) = Except.ok exported)
    (hsrc : env.AppGenesisFromFile env.GenesisFile = Except.ok source) :
    producedDocs (RunE (some appExporter) env).trace ≠ [] ∧
    ∀ doc ∈ producedDocs (RunE (some appExporter) env).trace,
      doc.AppName = env.versionAppName ∧ doc.AppVersion = env.versionVersion ∧
      doc.ChainID = source.ChainID ∧ doc.GenesisTime = source.GenesisTime := by
  rw [RunE_some appExporter env backend db hstat hb hdb]
  obtain ⟨h1, h2⟩ := exporterBranch_docs appExporter env db
    [Event.stat env.GenesisFile, Event.getBackend, Event.openDB env.RootDir backend]
    exported source rfl hex hsrc
  refine ⟨h1, ?_⟩
  intro doc hdoc
  rw [h2 doc hdoc]
  exact ⟨rfl, rfl, rfl, rfl⟩

/-- The property C3 for a source document written by the binary `oldd`. -/
theorem produced_identity_fields_witness :
    producedDocs (RunE (some okExporter) sampleEnv).trace ≠ [] ∧
    ∀ doc ∈ producedDocs (RunE (some okExporter) sampleEnv).trace,
      doc.AppName = "simd" ∧ doc.AppVersion = "v0.52.0" ∧
      doc.ChainID = "test-1" ∧ doc.GenesisTime = (1700000000 : Nat) :=
  produced_identity_fields okExporter sampleEnv "goleveldb" () sampleExported sampleGenesis
    rfl rfl rfl rfl rfl

/-- C4: on the exporter-present path, every genesis document the run produces,
and it produces one, has `AppState` equal to `exported.AppState`,
`InitialHeight` equal to `exported.Height` and `Consensus` equal to
`NewConsensusGenesis(exported.ConsensusParams, exported.Validators)`; the three
values are the same for every source document. -/
theorem produced_exported_fields {K : Carrier} (appExporter : AppExporter K) (env : Env K)
    (backend : BackendType) (db : K.DB) (exported : ExportedApp K) (source : AppGenesis K)
    (hstat : osIsNotExist (env.Stat env.GenesisFile) = false)
    (hb : getAppDBBackend env.appDbBackend env.dbBackend = Except.ok backend)
    (hdb : openDB env env.RootDir backend = Except.ok db)
    (hex : appExporter (exportArgs env db) = Except.ok exported)
    (hsrc : env.AppGenesisFromFile env.GenesisFile = Except.ok source) :
    producedDocs (RunE (some appExporter) env).trace ≠ [] ∧
    ∀ doc ∈ producedDocs (RunE (some appExporter) env).trace,
      doc.AppState = exported.AppState ∧ doc.InitialHeight = exported.Height ∧
      doc.Consensus = env.NewConsensusGenesis exported.ConsensusParams exported.Validators := by
  rw [RunE_some appExporter env backend db hstat hb hdb]
  obtain ⟨h1, h2⟩ := exporterBranch_docs appExporter env db
    [Event.stat env.GenesisFile, Event.getBackend, Event.openDB env.RootDir backend]
    exported source rfl hex hsrc
  refine ⟨h1, ?_⟩
  intro doc hdoc
  rw [h2 doc hdoc]
  exact ⟨rfl, rfl, rfl⟩

/-- The property C4 for a source document of height 1 and an export at
height 42. -/
theorem produced_exported_fields_witness :
    producedDocs (RunE (some okExporter) sampleEnv).trace ≠ [] ∧
    ∀ doc ∈ producedDocs (RunE (some okExporter) sampleEnv).trace,
      doc.AppState = [7, 8, 9] ∧ doc.InitialHeight = 42 ∧
      doc.Consensus = ((3 : Nat), [(4 : Nat), 5]) :=
  produced_exported_fields okExporter sampleEnv "goleveldb" () sampleExported sampleGenesis
    rfl rfl rfl rfl rfl

/-- C5 as stated fails: with no exporter and `--output-document out.json`, the
run succeeds, hands the bytes of the genesis file to standard output and makes
no call that writes the named file. -/
theorem no_exporter_ignores_output_document :
    fileTargetEnv.flags.getOutputDocument = "out.json" ∧
    (RunE none fileTargetEnv).outcome = Outcome.returned none ∧
    (RunE none fileTargetEnv).trace =
      [Event.stat "/home/node/config/genesis.json", Event.getBackend,
       Event.openDB "/home/node" "goleveldb", Event.warn warningText,
       Event.openFile "/home/node/config/genesis.json",
       Event.stdout [123, 34, 97, 34, 58, 49, 125],
       Event.closeFile "/home/node/config/genesis.json"] ∧
    savedPaths (RunE none fileTargetEnv).trace = [] ∧
    stdoutBytes (RunE none fileTargetEnv).trace = [123, 34, 97, 34, 58, 49, 125] :=
  ⟨rfl, rfl, rfl, rfl, rfl⟩

/-- C5, amended: with no exporter, a run in which the genesis file exists, the
store opens, and the warning, the opening of the genesis file and the copy do
not fail, delivers exactly the bytes of the genesis file, in order, to standard
output in one write, whatever the output-document setting is, writes no named
file, and returns nil. -/
theorem no_exporter_copies_to_stdout {K : Carrier} (env : Env K) (backend : BackendType)
    (db : K.DB) (content : List UInt8)
    (hstat : osIsNotExist (env.Stat env.GenesisFile) = false)
    (hb : getAppDBBackend env.appDbBackend env.dbBackend = Except.ok backend)
    (hdb : openDB env env.RootDir backend = Except.ok db)
    (hwarn : env.Fprintln warningText = none)
    (hopen : env.OpenFile env.GenesisFile = Except.ok content)
    (hcopy : env.copyFault = none) :
    (RunE none env).outcome = Outcome.returned none ∧
    stdoutBytes (RunE none env).trace = content ∧
    stdoutWrites (RunE none env).trace = 1 ∧
    savedPaths (RunE none env).trace = [] := by
  rw [RunE_none env backend db hstat hb hdb]
  simp [noExporterBranch, hwarn, hopen, ioCopy, hcopy, stdoutBytes, stdoutWrites, savedPaths]

/-- The amended C5 with `--output-document out.json` given. -/
theorem no_exporter_copies_to_stdout_witness :
    (RunE none fileTargetEnv).outcome = Outcome.returned none ∧
    stdoutBytes (RunE none fileTargetEnv).trace = [123, 34, 97, 34, 58, 49, 125] ∧
    stdoutWrites (RunE none fileTargetEnv).trace = 1 ∧
    savedPaths (RunE none fileTargetEnv).trace = [] :=
  no_exporter_copies_to_stdout fileTargetEnv "goleveldb" () [123, 34, 97, 34, 58, 49, 125]
    rfl rfl rfl rfl rfl rfl

/-- C6 as stated fails: when the genesis file does not exist the run writes
neither to standard output nor to a named file. -/
theorem absent_genesis_writes_neither :
    (RunE (some okExporter) absentEnv).outcome = Outcome.returned (some notExistError) ∧
    stdoutWrites (RunE (some okExporter) absentEnv).trace = 0 ∧
    savedPaths (RunE (some okExporter) absentEnv).trace = [] ∧
    stdoutWrites (RunE (some okExporter) absentEnv).trace
      + (savedPaths (RunE (some okExporter) absentEnv).trace).length ≠ 1 :=
  ⟨rfl, rfl, rfl, by decide⟩

/-- C6, amended: every invocation performs at most one of the two output
actions, never both; an invocation that returns nil performs exactly one; with
an exporter present, a write to standard output occurs only when the
output-document setting is empty and a `SaveAs` only when it is non-empty, with
that setting as its path, so that a run that returns nil writes to standard
output exactly when the setting is empty and calls `SaveAs(path)` exactly when
it is non-empty. -/
theorem output_actions {K : Carrier} (appExporter : Option (AppExporter K)) (env : Env K) :
    stdoutWrites (RunE appExporter env).trace
      + (savedPaths (RunE appExporter env).trace).length ≤ 1 ∧
    ((RunE appExporter env).outcome = Outcome.returned none →
      stdoutWrites (RunE appExporter env).trace
        + (savedPaths (RunE appExporter env).trace).length = 1) ∧
    (appExporter ≠ none →
      (stdoutWrites (RunE appExporter env).trace ≠ 0 → env.flags.getOutputDocument = "") ∧
      (∀ path ∈ savedPaths (RunE appExporter env).trace,
        path = env.flags.getOutputDocument ∧ env.flags.getOutputDocument ≠ "") ∧
      ((RunE appExporter env).outcome = Outcome.returned none →
        (env.flags.getOutputDocument = "" →
          stdoutWrites (RunE appExporter env).trace = 1 ∧
          savedPaths (RunE appExporter env).trace = []) ∧
        (env.flags.getOutputDocument ≠ "" →
          stdoutWrites (RunE appExporter env).trace = 0 ∧
          savedPaths (RunE appExporter env).trace = [env.flags.getOutputDocument]))) := by
  cases hs : osIsNotExist (env.Stat env.GenesisFile) with
  | true =>
    have hne : env.Stat env.GenesisFile ≠ none := by
      intro hn
      rw [hn] at hs
      simp [osIsNotExist] at hs
    simp [RunE, hs, stdoutWrites, savedPaths, hne]
  | false =>
    cases hb : getAppDBBackend env.appDbBackend env.dbBackend with
    | error msg => simp [RunE, hs, hb, stdoutWrites, savedPaths]
    | ok backend =>
      cases hdb : openDB env env.RootDir backend with
      | error e => simp [RunE, hs, hb, hdb, stdoutWrites, savedPaths]
      | ok db =>
        cases appExporter with
        | none =>
          rw [RunE_none env backend db hs hb hdb]
          cases hw : env.Fprintln warningText with
          | some e => simp [noExporterBranch, hw, stdoutWrites, savedPaths]
          | none =>
            cases ho : env.OpenFile env.GenesisFile with
            | error e => simp [noExporterBranch, hw, ho, stdoutWrites, savedPaths]
            | ok f =>
              cases hc : env.copyFault with
              | none => simp [noExporterBranch, hw, ho, ioCopy, hc, stdoutWrites, savedPaths]
              | some fault =>
                simp [noExporterBranch, hw, ho, ioCopy, hc, stdoutWrites, savedPaths]
        | some exporter =>
          rw [RunE_some exporter env backend db hs hb hdb]
          cases hex : exporter (exportArgs env db) with
          | error e => simp [exporterBranch, hex, stdoutWrites, savedPaths]
          | ok exported =>
            cases hsrc : env.AppGenesisFromFile env.GenesisFile with
            | error e => simp [exporterBranch, hex, hsrc, stdoutWrites, savedPaths]
            | ok source =>
              cases hm : env.Marshal (setExported env source exported) with
              | error e => simp [exporterBranch, hex, hsrc, hm, stdoutWrites, savedPaths]
              | ok out =>
                by_cases hdoc : env.flags.getOutputDocument = ""
                · simp [exporterBranch, hex, hsrc, hm, hdoc, stdoutWrites, savedPaths]
                · simp [exporterBranch, hex, hsrc, hm, hdoc, stdoutWrites, savedPaths]

/-- The amended C6 on two successful runs with an exporter: without the flag one
write to standard output and no file, with `--output-document out.json` one
`SaveAs("out.json")` and no write to standard output. -/
theorem output_actions_witness :
    (stdoutWrites (RunE (some okExporter) sampleEnv).trace = 1 ∧
      savedPaths (RunE (some okExporter) sampleEnv).trace = []) ∧
    (stdoutWrites (RunE (some okExporter) fileTargetEnv).trace = 0 ∧
      savedPaths (RunE (some okExporter) fileTargetEnv).trace = ["out.json"]) :=
  ⟨((output_actions (some okExporter) sampleEnv).2.2 (by simp)).2.2 rfl |>.1 rfl,
   ((output_actions (some okExporter) fileTargetEnv).2.2 (by simp)).2.2 rfl |>.2 (by decide)⟩

/-- C7: on the exporter-present path, when the export capability returns the
error `e`, the run returns an error whose message is `"error exporting state: "`
followed by the message of `e` and which unwraps to `e`; the capability was
called exactly once, the source genesis was not read for merging, and nothing
was written to standard output or to a file. -/
theorem export_error_wrapped {K : Carrier} (appExporter : AppExporter K) (env : Env K)
    (backend : BackendType) (db : K.DB) (e : GoError)
    (hstat : osIsNotExist (env.Stat env.GenesisFile) = false)
    (hb : getAppDBBackend env.appDbBackend env.dbBackend = Except.ok backend)
    (hdb : openDB env env.RootDir backend = Except.ok db)
    (hex : appExporter (exportArgs env db) = Except.error e) :
    (∃ err, (RunE (some appExporter) env).outcome = Outcome.returned (some err) ∧
      err.Error = "error exporting state: " ++ e.Error ∧ err.Unwrap = some e) ∧
    exportCalls (RunE (some appExporter) env).trace = [exportArgs env db] ∧
    genesisReads (RunE (some appExporter) env).trace = 0 ∧
    producedDocs (RunE (some appExporter) env).trace = [] ∧
    stdoutWrites (RunE (some appExporter) env).trace = 0 ∧
    stdoutBytes (RunE (some appExporter) env).trace = [] ∧
    savedPaths (RunE (some appExporter) env).trace = [] := by
  rw [RunE_some appExporter env backend db hstat hb hdb,
    exporterBranch_failed appExporter env db _ e hex]
  refine ⟨⟨errorfExportingState e, rfl, rfl, rfl⟩, ?_⟩
  simp [exportCalls, genesisReads, producedDocs, stdoutWrites, stdoutBytes, savedPaths]

/-- The property C7 for an exporter that fails with `height 9 is not available`. -/
theorem export_error_wrapped_witness :
    (∃ err, (RunE (some failingExporter) sampleEnv).outcome = Outcome.returned (some err) ∧
      err.Error = "error exporting state: " ++ "height 9 is not available" ∧
      err.Unwrap = some (GoError.plain "height 9 is not available" false)) ∧
    exportCalls (RunE (some failingExporter) sampleEnv).trace = [exportArgs sampleEnv ()] ∧
    genesisReads (RunE (some failingExporter) sampleEnv).trace = 0 ∧
    producedDocs (RunE (some failingExporter) sampleEnv).trace = [] ∧
    stdoutWrites (RunE (some failingExporter) sampleEnv).trace = 0 ∧
    stdoutBytes (RunE (some failingExporter) sampleEnv).trace = [] ∧
    savedPaths (RunE (some failingExporter) sampleEnv).trace = [] :=
  export_error_wrapped failingExporter sampleEnv "goleveldb" ()
    (GoError.plain "height 9 is not available" false) rfl rfl rfl rfl

/-- C8: on the exporter-present path the export capability is called once, with
the store handle and the four flag values as the flag set yields them: the given
height, or `-1` when none is given; the given module list, or the empty list
when none is given; and the run depends on the capability only through its value
at these arguments. -/
theorem exporter_receives_flags {K : Carrier} (appExporter : AppExporter K) (env : Env K)
    (backend : BackendType) (db : K.DB)
    (hstat : osIsNotExist (env.Stat env.GenesisFile) = false)
    (hb : getAppDBBackend env.appDbBackend env.dbBackend = Except.ok backend)
    (hdb : openDB env env.RootDir backend = Except.ok db) :
    exportCalls (RunE (some appExporter) env).trace =
      [{ db := db
         height := env.flags.height.getD (-1)
         forZeroHeight := env.flags.forZeroHeight.getD false
         jailAllowedAddrs := env.flags.jailAllowedAddrs.getD []
         modulesToExport := env.flags.modulesToExport.getD [] }] ∧
    ∀ other : AppExporter K,
      other (exportArgs env db) = appExporter (exportArgs env db) →
      RunE (some other) env = RunE (some appExporter) env := by
  constructor
  · rw [RunE_some appExporter env backend db hstat hb hdb]
    show exportCalls _ = [exportArgs env db]
    cases hex : appExporter (exportArgs env db) with
    | error e => simp [exporterBranch, hex, exportCalls]
    | ok exported =>
      cases hsrc : env.AppGenesisFromFile env.GenesisFile with
      | error e => simp [exporterBranch, hex, hsrc, exportCalls]
      | ok source =>
        cases hm : env.Marshal (setExported env source exported) with
        | error e => simp [exporterBranch, hex, hsrc, hm, exportCalls]
        | ok out =>
          by_cases hdoc : env.flags.getOutputDocument = ""
          · simp [exporterBranch, hex, hsrc, hm, hdoc, exportCalls]
          · simp [exporterBranch, hex, hsrc, hm, hdoc, exportCalls]
  · intro other hother
    rw [RunE_some appExporter env backend db hstat hb hdb,
      RunE_some other env backend db hstat hb hdb]
    unfold exporterBranch
    simp only [hother]

/-- The property C8 with no height given and `--modules-to-export bank`: the
capability receives the height `-1` and the filter `["bank"]`. -/
theorem exporter_receives_flags_witness :
    exportCalls (RunE (some okExporter) bankEnv).trace =
      [{ db := (), height := -1, forZeroHeight := true, jailAllowedAddrs := [],
         modulesToExport := ["bank"] }] ∧
    ∀ other : AppExporter natCarrier,
      other (exportArgs bankEnv ()) = okExporter (exportArgs bankEnv ()) →
      RunE (some other) bankEnv = RunE (some okExporter) bankEnv :=
  exporter_receives_flags okExporter bankEnv "goleveldb" () rfl rfl rfl

/-- C9: when the genesis file is absent, with or without an exporter, the run
returns the not-exist error of the file check and its only call is that check:
no backend resolution, no opening of the store, no call of the export
capability, no warning, nothing written to standard output or to a file. -/
theorem genesis_absent_no_work {K : Carrier} (appExporter : Option (AppExporter K))
    (env : Env K) (h : osIsNotExist (env.Stat env.GenesisFile) = true) :
    (∃ e, env.Stat env.GenesisFile = some e ∧
      (RunE appExporter env).outcome = Outcome.returned (some e)) ∧
    (RunE appExporter env).trace = [Event.stat env.GenesisFile] ∧
    backendResolutions (RunE appExporter env).trace = 0 ∧
    storeOpens (RunE appExporter env).trace = 0 ∧
    exportCalls (RunE appExporter env).trace = [] ∧
    warnings (RunE appExporter env).trace = 0 ∧
    stdoutWrites (RunE appExporter env).trace = 0 ∧
    stdoutBytes (RunE appExporter env).trace = [] ∧
    savedPaths (RunE appExporter env).trace = [] := by
  rw [RunE_absent appExporter env h]
  refine ⟨?_, rfl, rfl, rfl, rfl, rfl, rfl, rfl, rfl⟩
  cases hs : env.Stat env.GenesisFile with
  | none => rw [hs] at h; simp [osIsNotExist] at h
  | some e => exact ⟨e, rfl, rfl⟩

/-- The property C9 with no exporter registered. -/
theorem genesis_absent_no_work_witness :
    (∃ e, absentEnv.Stat absentEnv.GenesisFile = some e ∧
      (RunE none absentEnv).outcome = Outcome.returned (some e)) ∧
    (RunE none absentEnv).trace = [Event.stat absentEnv.GenesisFile] ∧
    backendResolutions (RunE none absentEnv).trace = 0 ∧
    storeOpens (RunE none absentEnv).trace = 0 ∧
    exportCalls (RunE none absentEnv).trace = [] ∧
    warnings (RunE none absentEnv).trace = 0 ∧
    stdoutWrites (RunE none absentEnv).trace = 0 ∧
    stdoutBytes (RunE none absentEnv).trace = [] ∧
    savedPaths (RunE none absentEnv).trace = [] :=
  genesis_absent_no_work none absentEnv rfl

/-- C10 as stated fails: when `os.Stat` fails with a permission error, the run
goes on, opens the store, calls the export capability, and returns the error of
the later read, not the error of the check. -/
theorem stat_failure_not_absence_continues :
    permissionEnv.Stat permissionEnv.GenesisFile = some permissionError ∧
    exportCalls (RunE (some okExporter) permissionEnv).trace
      = [exportArgs permissionEnv ()] ∧
    storeOpens (RunE (some okExporter) permissionEnv).trace = 1 ∧
    (RunE (some okExporter) permissionEnv).outcome
      = Outcome.returned (some openPermissionError) ∧
    (RunE (some okExporter) permissionEnv).outcome
      ≠ Outcome.returned (some permissionError) :=
  ⟨rfl, rfl, rfl, rfl, by decide⟩

/-- C10, amended: a not-exist failure of the genesis check, or any failure of
opening the store, ends the run with that error returned unchanged, before the
export capability is called and before anything is written to standard output
or to a file; for the store this holds with and without an exporter. -/
theorem early_failures_abort {K : Carrier} (appExporter : Option (AppExporter K))
    (env : Env K) :
    (∀ e, env.Stat env.GenesisFile = some e → osIsNotExist (some e) = true →
      (RunE appExporter env).outcome = Outcome.returned (some e) ∧
      exportCalls (RunE appExporter env).trace = [] ∧
      stdoutWrites (RunE appExporter env).trace = 0 ∧
      stdoutBytes (RunE appExporter env).trace = [] ∧
      savedPaths (RunE appExporter env).trace = []) ∧
    (∀ backend e, osIsNotExist (env.Stat env.GenesisFile) = false →
      getAppDBBackend env.appDbBackend env.dbBackend = Except.ok backend →
      openDB env env.RootDir backend = Except.error e →
      (RunE appExporter env).outcome = Outcome.returned (some e) ∧
      exportCalls (RunE appExporter env).trace = [] ∧
      stdoutWrites (RunE appExporter env).trace = 0 ∧
      stdoutBytes (RunE appExporter env).trace = [] ∧
      savedPaths (RunE appExporter env).trace = []) := by
  constructor
  · intro e hs hne
    rw [← hs] at hne
    rw [RunE_absent appExporter env hne, hs]
    exact ⟨rfl, rfl, rfl, rfl, rfl⟩
  · intro backend e hstat hb hdb
    rw [RunE_open_failed appExporter env backend e hstat hb hdb]
    exact ⟨rfl, rfl, rfl, rfl, rfl⟩

/-- The amended C10 on an absent genesis file with an exporter and on a store
that fails to open without one. -/
theorem early_failures_abort_witness :
    ((RunE (some okExporter) absentEnv).outcome = Outcome.returned (some notExistError) ∧
      exportCalls (RunE (some okExporter) absentEnv).trace = [] ∧
      stdoutWrites (RunE (some okExporter) absentEnv).trace = 0 ∧
      stdoutBytes (RunE (some okExporter) absentEnv).trace = [] ∧
      savedPaths (RunE (some okExporter) absentEnv).trace = []) ∧
    ((RunE none lockedEnv).outcome = Outcome.returned (some lockError) ∧
      exportCalls (RunE none lockedEnv).trace = [] ∧
      stdoutWrites (RunE none lockedEnv).trace = 0 ∧
      stdoutBytes (RunE none lockedEnv).trace = [] ∧
      savedPaths (RunE none lockedEnv).trace = []) :=
  ⟨(early_failures_abort (some okExporter) absentEnv).1 notExistError rfl rfl,
   (early_failures_abort none lockedEnv).2 "goleveldb" lockError rfl rfl rfl⟩

end Export
